import Mathlib

/-!
Verification of the storage/consistency engine of GestorInventarioRepuestos
(src/Servidor/server.py), shallowly embedded in Lean 4.

The SQLite table `repuestos` is modelled as a list of rows (insertion
ordered, as `fetchall` observes it); the ledger tables `ventas` and
`devoluciones` as lists of rows.  The wall clock (`now_ts()`) is passed
explicitly as a `String` argument to every operation that reads it.  The
global lock `DB_LOCK` serializes every operation, so each Python method
becomes an atomic state transformer and concurrent executions are the set
of sequential interleavings of those transformers.
-/

/-- A row of the `repuestos` table (see `_init_schema` in server.py).
`cantidad` is an SQLite INTEGER, modelled as `Int`; the REAL price columns
are modelled as rationals (no claim computes with them). `deleted` is the
0/1 soft-delete flag, modelled as `Bool`. -/
structure Repuesto where
  id : String
  nombre : String
  descripcion : String
  cantidad : Int
  precio_usd : Rat
  precio_bs : Rat
  ultimo_update : String
  deleted : Bool
deriving Repr, DecidableEq

/-- A row of the `ventas` (sales) or `devoluciones` (returns) ledger tables:
`(item_id, cantidad, fecha)`.  The AUTOINCREMENT id column is the list
position. -/
structure Venta where
  item_id : String
  cantidad : Int
  fecha : String
deriving Repr, DecidableEq

/-- The mutable SQLite state of `ServerDB`: the `repuestos` table plus the
two ledger tables. -/
structure ServerDB where
  repuestos : List Repuesto
  ventas : List Venta
  devoluciones : List Venta
deriving Repr, DecidableEq

/-- `SELECT * FROM repuestos WHERE id=? AND deleted=0` followed by
`fetchone()`: the first active row with the given id. -/
def findActive (l : List Repuesto) (item_id : String) : Option Repuesto :=
  (l.filter fun r => r.id == item_id && !r.deleted).head?

/-- `ServerDB.get_all`: `SELECT * FROM repuestos WHERE deleted=0`. -/
def ServerDB.get_all (db : ServerDB) : List Repuesto :=
  db.repuestos.filter fun r => !r.deleted

/-- `ServerDB.get_one`: first active row matching the id, or `none`. -/
def ServerDB.get_one (db : ServerDB) (item_id : String) : Option Repuesto :=
  findActive db.repuestos item_id

/-- `UPDATE repuestos SET ... WHERE id=?`: applies `f` to every row whose id
matches (with the PRIMARY KEY constraint there is at most one). -/
def updateById (l : List Repuesto) (item_id : String) (f : Repuesto → Repuesto) :
    List Repuesto :=
  l.map fun x => if x.id == item_id then f x else x

/-- `ServerDB.sell item_id quantity` (server.py lines 189-203), with the
clock value `now` passed explicitly.  Returns the Python pair
`(False, message)` as `.error message` and `(True, newq)` as `.ok newq`,
together with the post state. -/
def ServerDB.sell (db : ServerDB) (item_id : String) (quantity : Int)
    (now : String) : Except String Int × ServerDB :=
  match findActive db.repuestos item_id with
  | none => (.error "Articulo no encontrado", db)
  | some r =>
    if quantity > r.cantidad then
      (.error "Stock insuficiente", db)
    else
      let newq := r.cantidad - quantity
      (.ok newq,
        { db with
            repuestos := updateById db.repuestos item_id
              fun x => { x with cantidad := newq, ultimo_update := now }
            ventas := db.ventas ++ [⟨item_id, quantity, now⟩] })

/-- `ServerDB.add_quantity item_id quantity` (server.py lines 205-216): the
return path; no stock check at all, `newq = cantidad + quantity`. -/
def ServerDB.add_quantity (db : ServerDB) (item_id : String) (quantity : Int)
    (now : String) : Except String Int × ServerDB :=
  match findActive db.repuestos item_id with
  | none => (.error "Articulo no encontrado", db)
  | some r =>
    let newq := r.cantidad + quantity
    (.ok newq,
      { db with
          repuestos := updateById db.repuestos item_id
            fun x => { x with cantidad := newq, ultimo_update := now }
          devoluciones := db.devoluciones ++ [⟨item_id, quantity, now⟩] })

/-- `ServerDB.mark_deleted` (server.py lines 183-187):
`UPDATE repuestos SET deleted=1, ultimo_update=? WHERE id=?`. -/
def ServerDB.mark_deleted (db : ServerDB) (item_id : String) (now : String) :
    ServerDB :=
  { db with
      repuestos := updateById db.repuestos item_id
        fun x => { x with deleted := true, ultimo_update := now } }

/-- Input to `upsert`: the JSON dict received by the `/items` endpoint.
The endpoint rejects a body without `"id"` before calling `upsert`, so `id`
is a plain field here; every other column is `Option`al, `none` meaning the
key is absent from the dict.  (`descripcion` is a nullable column, but the
named-parameter binding still requires the KEY to be present; a present
null is immaterial to every claim.) -/
structure ItemInput where
  id : String
  nombre : Option String
  descripcion : Option String
  cantidad : Option Int
  precio_usd : Option Rat
  precio_bs : Option Rat
  ultimo_update : Option String
deriving Repr, DecidableEq

/-- `ServerDB.upsert` (server.py lines 165-181).  The method first does
`item.setdefault("ultimo_update", now_ts())`, then executes an INSERT with
the named parameters `:id,:nombre,:descripcion,:cantidad,:precio_usd,
:precio_bs,:ultimo_update`.  sqlite3 raises `ProgrammingError` when the
dict lacks a key for a bound parameter — there is no `setdefault` for
`cantidad` or the prices, and the column DEFAULTs never apply because the
INSERT always lists those columns.  `ON CONFLICT(id) DO UPDATE` overwrites
every mutable field and clears `deleted`. -/
def ServerDB.upsert (db : ServerDB) (item : ItemInput) (now : String) :
    Except String ServerDB :=
  let ultimo := item.ultimo_update.getD now
  match item.nombre, item.descripcion, item.cantidad,
        item.precio_usd, item.precio_bs with
  | some nom, some desc, some cant, some pu, some pb =>
    if db.repuestos.any fun r => r.id == item.id then
      .ok { db with
              repuestos := updateById db.repuestos item.id
                fun _ => ⟨item.id, nom, desc, cant, pu, pb, ultimo, false⟩ }
    else
      .ok { db with
              repuestos :=
                db.repuestos ++ [⟨item.id, nom, desc, cant, pu, pb, ultimo, false⟩] }
  | _, _, _, _, _ =>
    .error "You did not supply a value for binding parameter"

/-- `require_api_key` (server.py lines 277-288).  `serverKey` is
`read_api_key()` (`none` when `api_key.txt` is absent/unreadable);
`header` is `request.headers.get("X-API-KEY", "")`, so an absent header
arrives as `""`.  The result is the early HTTP error `(status, body)` the
wrapper returns, or `none` when the wrapped endpoint runs. -/
def require_api_key (serverKey : Option String) (header : String) :
    Option (Nat × String) :=
  match serverKey with
  | none => some (403, "server_api_key_no_configurada")
  | some key =>
    if header = "" ∨ header ≠ key then some (401, "api_key_invalida_o_faltante")
    else none

/-- `list_backups` (server.py lines 400-406):
`sorted(os.listdir(BACKUPS_DIR), reverse=True)` — the directory listing in
descending lexicographic (Unicode code point) filename order. -/
def list_backups (files : List String) : List String :=
  List.insertionSort (fun a b => b ≤ a) files

/-- The creation timestamp embedded in a snapshot filename, as its
character sequence: strips the kind tag (`backup_` or `pre_restore_`) and
the `.db` suffix, leaving the `YYYYMMDDHHMMSS` stamp, which orders like
creation time.  Character lists are used so that comparisons compute. -/
def timestampChars (fname : String) : List Char :=
  let cs := fname.toList.dropLast.dropLast.dropLast
  if cs.take 12 = "pre_restore_".toList then cs.drop 12
  else if cs.take 7 = "backup_".toList then cs.drop 7
  else cs

/-- `update_last_update` (server.py lines 233-237): under its own lock it
sets the global `LAST_UPDATE` to `now_ts()`, the current wall-clock second.
The previous value is discarded.  Clock times are modelled as `Nat`
seconds; the second-resolution formatted string preserves exactly this
order for a monotone clock. -/
def update_last_update (now : Nat) (_lastUpdate : Nat) : Nat := now

/-- The `LAST_UPDATE` value after a sequence of mutations bumping at clock
times `ms` (each mutating endpoint calls `update_last_update` once after
its mutation), starting from value `v0`. -/
def bumpFold (v0 : Nat) (ms : List Nat) : Nat :=
  ms.foldl (fun v t => update_last_update t v) v0

/-- A file location in the snapshot subsystem: the live storage file
(`server_data.db`) or a named file inside `backups/`. -/
inductive Loc where
  | live
  | backup (name : String)
deriving Repr, DecidableEq

/-- The primitive steps the restore flow performs on shared state, in the
order server.py issues them (restore_backup_dialog, lines 605-640). -/
inductive FileOp where
  | commit
  | closeDB
  | copyFile (src dst : Loc)
  | reconnect
  | bumpVersion (now : String)
deriving Repr, DecidableEq

/-- Observable state acted on by the snapshot subsystem: the bytes of the
live storage file, the contents of the `backups/` directory (a map from
filename to bytes, `none` meaning the file does not exist), whether the
SQLite connection is open, and `LAST_UPDATE`. -/
structure RestoreState where
  liveBytes : String
  backups : String → Option String
  connected : Bool
  lastUpdate : String

/-- Read the bytes at a location (`none` when the file does not exist). -/
def RestoreState.readLoc (st : RestoreState) : Loc → Option String
  | .live => some st.liveBytes
  | .backup n => st.backups n

/-- Write bytes at a location (create or overwrite, as `shutil.copyfile`
does on the destination path). -/
def RestoreState.writeLoc (st : RestoreState) (l : Loc) (bytes : String) :
    RestoreState :=
  match l with
  | .live => { st with liveBytes := bytes }
  | .backup n =>
    { st with backups := fun m => if m = n then some bytes else st.backups m }

/-- One step of the interpreter for `FileOp`. -/
def stepOp (st : RestoreState) : FileOp → RestoreState
  | .commit => st
  | .closeDB => { st with connected := false }
  | .copyFile src dst =>
    match st.readLoc src with
    | some bytes => st.writeLoc dst bytes
    | none => st
  | .reconnect => { st with connected := true }
  | .bumpVersion now => { st with lastUpdate := now }

/-- Run a trace of file operations from a state. -/
def runOps (st : RestoreState) (ops : List FileOp) : RestoreState :=
  ops.foldl stepOp st

/-- The trace `restore_backup_dialog` executes once the operator has picked
an existing backup `sel` and confirmed (server.py lines 623-636): under
`DB_LOCK` it commits, closes the connection, copies the live file to the
fresh `pre_restore_<timestamp>.db`, copies the chosen backup over the live
file, reconnects, and finally calls `update_last_update`. -/
def restoreTrace (sel : String) (nowTs : String) (nowVer : String) :
    List FileOp :=
  [ .commit,
    .closeDB,
    .copyFile .live (.backup ("pre_restore_" ++ nowTs ++ ".db")),
    .copyFile (.backup sel) .live,
    .reconnect,
    .bumpVersion nowVer ]

/-- `restore_backup_dialog` on the picked filename `sel`: if the file does
not exist the dialog errors out and no state changes; otherwise it runs
`restoreTrace`. -/
def restore_backup (st : RestoreState) (sel : String) (nowTs nowVer : String) :
    RestoreState :=
  match st.readLoc (.backup sel) with
  | none => st
  | some _ => runOps st (restoreTrace sel nowTs nowVer)

/-! ### Helper lemmas about the row-list operations -/

theorem findActive_cons (x : Repuesto) (xs : List Repuesto) (i : String) :
    findActive (x :: xs) i =
      if x.id == i && !x.deleted then some x else findActive xs i := by
  by_cases h : (x.id == i && !x.deleted) = true
  · simp [findActive, List.filter_cons, h]
  · simp [findActive, List.filter_cons, h]

theorem findActive_eq_some (l : List Repuesto) (i : String) (r : Repuesto)
    (h : findActive l i = some r) :
    r ∈ l ∧ r.id = i ∧ r.deleted = false := by
  induction l with
  | nil => simp [findActive] at h
  | cons x xs ih =>
    rw [findActive_cons] at h
    by_cases hx : (x.id == i && !x.deleted) = true
    · rw [if_pos hx] at h
      cases h
      simp only [Bool.and_eq_true, beq_iff_eq, Bool.not_eq_true'] at hx
      exact ⟨List.mem_cons_self _ _, hx.1, hx.2⟩
    · rw [if_neg hx] at h
      obtain ⟨hm, hid, hdel⟩ := ih h
      exact ⟨List.mem_cons_of_mem _ hm, hid, hdel⟩

theorem updateById_cons (x : Repuesto) (xs : List Repuesto) (i : String)
    (f : Repuesto → Repuesto) :
    updateById (x :: xs) i f =
      (if x.id == i then f x else x) :: updateById xs i f := rfl

theorem map_id_updateById (l : List Repuesto) (i : String)
    (f : Repuesto → Repuesto) (hf : ∀ x, (f x).id = x.id) :
    (updateById l i f).map Repuesto.id = l.map Repuesto.id := by
  induction l with
  | nil => rfl
  | cons x xs ih =>
    rw [updateById_cons, List.map_cons, List.map_cons, ih]
    by_cases hx : (x.id == i) = true
    · rw [if_pos hx, hf]
    · rw [if_neg hx]

/-- Updating the rows with id `i` does not disturb the lookup of a
different id `j`, as long as `f` preserves ids. -/
theorem findActive_updateById_other (l : List Repuesto) (i j : String)
    (f : Repuesto → Repuesto) (hf : ∀ x, (f x).id = x.id) (hne : j ≠ i) :
    findActive (updateById l i f) j = findActive l j := by
  induction l with
  | nil => rfl
  | cons x xs ih =>
    rw [updateById_cons, findActive_cons, findActive_cons, ih]
    by_cases hx : (x.id == i) = true
    · rw [if_pos hx]
      have hxj : (x.id == j) = false := by
        have hxi : x.id = i := beq_iff_eq.mp hx
        rw [beq_eq_false_iff_ne, hxi]
        exact fun hij => hne hij.symm
      have hfxj : ((f x).id == j) = false := by rw [hf]; exact hxj
      rw [hfxj, hxj]
      simp
    · rw [if_neg hx]

/-- With unique ids, updating the rows with id `i` rewrites exactly the row
`findActive` returns. -/
theorem findActive_updateById_self (l : List Repuesto) (i : String)
    (f : Repuesto → Repuesto) (r : Repuesto)
    (hnd : (l.map Repuesto.id).Nodup)
    (h : findActive l i = some r)
    (hfid : (f r).id = r.id) (hfdel : (f r).deleted = false) :
    findActive (updateById l i f) i = some (f r) := by
  induction l with
  | nil => simp [findActive] at h
  | cons x xs ih =>
    rw [List.map_cons, List.nodup_cons] at hnd
    rw [findActive_cons] at h
    rw [updateById_cons, findActive_cons]
    by_cases hx : (x.id == i && !x.deleted) = true
    · rw [if_pos hx] at h
      cases h
      have hxi : (r.id == i) = true := by
        simp only [Bool.and_eq_true] at hx; exact hx.1
      rw [if_pos hxi]
      have : ((f r).id == i && !(f r).deleted) = true := by
        simp only [Bool.and_eq_true, beq_iff_eq, Bool.not_eq_true']
        refine ⟨?_, hfdel⟩
        rw [hfid]; exact beq_iff_eq.mp hxi
      rw [if_pos this]
    · rw [if_neg hx] at h
      obtain ⟨hmem, hid, _⟩ := findActive_eq_some xs i r h
      have hxid : (x.id == i) = false := by
        rw [beq_eq_false_iff_ne]
        intro hcontra
        exact hnd.1 (hcontra ▸ hid ▸ List.mem_map_of_mem Repuesto.id hmem)
      rw [if_neg (by simp [hxid])]
      exact ih hnd.2 h

/-! ### Behaviour of `sell`, `add_quantity` and `mark_deleted` -/

theorem sell_not_found (db : ServerDB) (i : String) (q : Int) (now : String)
    (h : db.get_one i = none) :
    db.sell i q now = (.error "Articulo no encontrado", db) := by
  unfold ServerDB.sell
  rw [show findActive db.repuestos i = none from h]

theorem sell_insufficient (db : ServerDB) (i : String) (q : Int) (now : String)
    (r : Repuesto) (h : db.get_one i = some r) (hgt : q > r.cantidad) :
    db.sell i q now = (.error "Stock insuficiente", db) := by
  unfold ServerDB.sell
  rw [show findActive db.repuestos i = some r from h]
  dsimp only
  rw [if_pos hgt]

theorem sell_ok (db : ServerDB) (i : String) (q : Int) (now : String)
    (r : Repuesto) (h : db.get_one i = some r) (hle : q ≤ r.cantidad) :
    db.sell i q now =
      (.ok (r.cantidad - q),
       { db with
           repuestos := updateById db.repuestos i
             fun x => { x with cantidad := r.cantidad - q, ultimo_update := now }
           ventas := db.ventas ++ [⟨i, q, now⟩] }) := by
  unfold ServerDB.sell
  rw [show findActive db.repuestos i = some r from h]
  dsimp only
  rw [if_neg (not_lt.mpr hle)]

theorem sell_ok_get_one (db : ServerDB) (i : String) (q : Int) (now : String)
    (r : Repuesto)
    (hnd : (db.repuestos.map Repuesto.id).Nodup)
    (h : db.get_one i = some r) (hle : q ≤ r.cantidad) :
    (db.sell i q now).2.get_one i =
      some { r with cantidad := r.cantidad - q, ultimo_update := now } := by
  rw [sell_ok db i q now r h hle]
  obtain ⟨_, _, hdel⟩ := findActive_eq_some db.repuestos i r h
  exact findActive_updateById_self db.repuestos i _ r hnd h rfl hdel

theorem add_quantity_not_found (db : ServerDB) (i : String) (q : Int)
    (now : String) (h : db.get_one i = none) :
    db.add_quantity i q now = (.error "Articulo no encontrado", db) := by
  unfold ServerDB.add_quantity
  rw [show findActive db.repuestos i = none from h]

theorem add_quantity_ok (db : ServerDB) (i : String) (q : Int) (now : String)
    (r : Repuesto) (h : db.get_one i = some r) :
    db.add_quantity i q now =
      (.ok (r.cantidad + q),
       { db with
           repuestos := updateById db.repuestos i
             fun x => { x with cantidad := r.cantidad + q, ultimo_update := now }
           devoluciones := db.devoluciones ++ [⟨i, q, now⟩] }) := by
  unfold ServerDB.add_quantity
  rw [show findActive db.repuestos i = some r from h]

theorem add_quantity_ok_get_one (db : ServerDB) (i : String) (q : Int)
    (now : String) (r : Repuesto)
    (hnd : (db.repuestos.map Repuesto.id).Nodup)
    (h : db.get_one i = some r) :
    (db.add_quantity i q now).2.get_one i =
      some { r with cantidad := r.cantidad + q, ultimo_update := now } := by
  rw [add_quantity_ok db i q now r h]
  obtain ⟨_, _, hdel⟩ := findActive_eq_some db.repuestos i r h
  exact findActive_updateById_self db.repuestos i _ r hnd h rfl hdel

/-- Deleting id `i` makes `findActive` on `i` fail, whatever the list. -/
theorem findActive_updateDel_self (l : List Repuesto) (i t : String) :
    findActive
      (updateById l i fun x => { x with deleted := true, ultimo_update := t }) i
      = none := by
  induction l with
  | nil => rfl
  | cons x xs ih =>
    rw [updateById_cons, findActive_cons]
    by_cases hx : (x.id == i) = true
    · rw [if_pos hx]
      simpa using ih
    · have hxf : (x.id == i) = false := by simpa using hx
      rw [if_neg hx, if_neg (by simp [hxf])]
      exact ih

/-- `get_all` is unchanged by a second `mark_deleted` of the same id. -/
theorem filter_active_double_del (l : List Repuesto) (i t1 t2 : String) :
    ((updateById (updateById l i fun x => { x with deleted := true, ultimo_update := t1 })
        i fun x => { x with deleted := true, ultimo_update := t2 }).filter
          fun r => !r.deleted)
      = ((updateById l i fun x => { x with deleted := true, ultimo_update := t1 }).filter
          fun r => !r.deleted) := by
  induction l with
  | nil => rfl
  | cons x xs ih =>
    rw [updateById_cons, updateById_cons]
    by_cases hx : (x.id == i) = true
    · rw [if_pos hx, if_pos hx]
      rw [List.filter_cons, List.filter_cons]
      simp only [Bool.not_true, if_neg]
      simpa using ih
    · rw [if_neg hx, if_neg hx]
      rw [List.filter_cons, List.filter_cons, ih]

/-! ### Behaviour of the change-version tracker -/

theorem bumpFold_nil (v0 : Nat) : bumpFold v0 [] = v0 := rfl

theorem bumpFold_cons (v0 t : Nat) (ts : List Nat) :
    bumpFold v0 (t :: ts) = bumpFold t ts := rfl

/-- Under a monotone clock the version only moves forward. -/
theorem le_bumpFold (v0 : Nat) (ms : List Nat)
    (hmono : List.Chain (· ≤ ·) v0 ms) : v0 ≤ bumpFold v0 ms := by
  induction ms generalizing v0 with
  | nil => exact le_refl v0
  | cons t ts ih =>
    rw [List.chain_cons] at hmono
    rw [bumpFold_cons]
    exact le_trans hmono.1 (ih t hmono.2)

/-- Splitting a monotone bump sequence: the tail is monotone from the
version reached by the initial segment. -/
theorem chain_bumpFold_append (v0 : Nat) (p s : List Nat)
    (hmono : List.Chain (· ≤ ·) v0 (p ++ s)) :
    List.Chain (· ≤ ·) (bumpFold v0 p) s := by
  induction p generalizing v0 with
  | nil => exact hmono
  | cons t ts ih =>
    rw [List.cons_append, List.chain_cons] at hmono
    rw [bumpFold_cons]
    exact ih t hmono.2

theorem bumpFold_append (v0 : Nat) (p s : List Nat) :
    bumpFold v0 (p ++ s) = bumpFold (bumpFold v0 p) s := by
  unfold bumpFold
  exact List.foldl_append _ _ _ _

/-- If the version value is unchanged after a monotone bump sequence, every
bump in the sequence happened at exactly that clock value. -/
theorem bumpFold_fixed_coalesce (v0 : Nat) (ms : List Nat)
    (hmono : List.Chain (· ≤ ·) v0 ms) (hfix : bumpFold v0 ms = v0) :
    ∀ t ∈ ms, t = v0 := by
  induction ms generalizing v0 with
  | nil => intro t ht; simp at ht
  | cons u ts ih =>
    rw [List.chain_cons] at hmono
    rw [bumpFold_cons] at hfix
    have hu : u ≤ bumpFold u ts := le_bumpFold u ts hmono.2
    have huv : u = v0 := le_antisymm (hfix ▸ hu) hmono.1
    intro t ht
    rcases List.mem_cons.mp ht with h | h
    · exact h ▸ huv
    · exact (ih u hmono.2 (huv.symm ▸ hfix) t h).trans huv

/-! ### Behaviour of the snapshot/restore file operations -/

theorem runOps_restoreTrace (st : RestoreState) (sel nowTs nowVer : String)
    (bytes : String) (h : st.backups sel = some bytes)
    (hne : sel ≠ "pre_restore_" ++ nowTs ++ ".db") :
    runOps st (restoreTrace sel nowTs nowVer) =
      { liveBytes := bytes
        backups := fun m =>
          if m = "pre_restore_" ++ nowTs ++ ".db" then some st.liveBytes
          else st.backups m
        connected := true
        lastUpdate := nowVer } := by
  simp only [restoreTrace, runOps, List.foldl, stepOp, RestoreState.readLoc,
    RestoreState.writeLoc]
  rw [if_neg hne, h]

/-! ### Claim theorems -/

/-- Claim C2: for every store state and sale request, `sell` fails with the
not-found error when no active record matches the id; fails with the
insufficient-stock error when the delta exceeds the current quantity; and
otherwise returns the new quantity, stores old-minus-delta with a refreshed
last-modified timestamp, appends exactly one sale ledger entry for
`(id, delta)`, and leaves the returns ledger alone. -/
theorem C2_adjust_quantity_sale (db : ServerDB) (i : String) (delta : Int)
    (now : String) (r : Repuesto)
    (hnd : (db.repuestos.map Repuesto.id).Nodup) :
    (db.get_one i = none →
        db.sell i delta now = (.error "Articulo no encontrado", db)) ∧
    (db.get_one i = some r → delta > r.cantidad →
        db.sell i delta now = (.error "Stock insuficiente", db)) ∧
    (db.get_one i = some r → delta ≤ r.cantidad →
        (db.sell i delta now).1 = .ok (r.cantidad - delta) ∧
        (db.sell i delta now).2.get_one i =
          some { r with cantidad := r.cantidad - delta, ultimo_update := now } ∧
        (db.sell i delta now).2.ventas = db.ventas ++ [⟨i, delta, now⟩] ∧
        (db.sell i delta now).2.devoluciones = db.devoluciones) := by
  refine ⟨fun h => sell_not_found db i delta now h,
          fun h hgt => sell_insufficient db i delta now r h hgt,
          fun h hle => ⟨?_, sell_ok_get_one db i delta now r hnd h hle, ?_, ?_⟩⟩ <;>
    rw [sell_ok db i delta now r h hle]

def dbC2 : ServerDB := ⟨[⟨"A", "tornillo", "m4", 5, 0, 0, "t0", false⟩], [], []⟩

/-- Witness for C2 at a concrete store: record `A` holds 5 units, selling 3
returns 2 and appends one sale ledger row. -/
theorem C2_adjust_quantity_sale_witness :
    (dbC2.sell "A" 3 "t1").1 = .ok 2 ∧
    (dbC2.sell "A" 3 "t1").2.ventas = [⟨"A", 3, "t1"⟩] := by
  have h := C2_adjust_quantity_sale dbC2 "A" 3 "t1"
      ⟨"A", "tornillo", "m4", 5, 0, 0, "t0", false⟩ (by decide)
  obtain ⟨h1, -, h3, -⟩ := (h.2.2 (by decide) (by decide))
  exact ⟨h1, by rw [h3]; rfl⟩

/-- Claim C3: a sale can never drive any stored quantity negative: if every
record quantity is non-negative before a `sell`, every record quantity is
non-negative after it, whatever the request. -/
theorem C3_sale_preserves_nonneg (db : ServerDB) (i : String) (q : Int)
    (now : String) (hpos : ∀ x ∈ db.repuestos, 0 ≤ x.cantidad) :
    ∀ x ∈ (db.sell i q now).2.repuestos, 0 ≤ x.cantidad := by
  rcases hfa : findActive db.repuestos i with _ | r
  · rw [sell_not_found db i q now hfa]
    exact hpos
  · by_cases hgt : q > r.cantidad
    · rw [sell_insufficient db i q now r hfa hgt]
      exact hpos
    · rw [sell_ok db i q now r hfa (not_lt.mp hgt)]
      intro x hx
      dsimp only at hx
      obtain ⟨y, hy, hxy⟩ := List.mem_map.mp hx
      by_cases hyid : (y.id == i) = true
      · rw [if_pos hyid] at hxy
        rw [← hxy]
        have hle : q ≤ r.cantidad := not_lt.mp hgt
        dsimp only
        omega
      · rw [if_neg hyid] at hxy
        exact hxy ▸ hpos y hy

def dbC3 : ServerDB := ⟨[⟨"A", "tornillo", "m4", 5, 0, 0, "t0", false⟩], [], []⟩

/-- Witness for C3: starting from `A` with 5 units (non-negative), the row
left after selling 3 carries a non-negative quantity. -/
theorem C3_sale_preserves_nonneg_witness :
    0 ≤ (⟨"A", "tornillo", "m4", 2, 0, 0, "t1", false⟩ : Repuesto).cantidad :=
  C3_sale_preserves_nonneg dbC3 "A" 3 "t1" (by decide) _ (by decide)

/-- Claim C10: the return path performs no positivity or stock check: for every
active record with quantity `q` and arbitrary integer delta `d` (zero and
negative included), `add_quantity` succeeds, stores and returns `q + d`,
appends one returns ledger row and leaves the sales ledger alone.  A
negative `d` below `-q` therefore drives the stored quantity negative. -/
theorem C10_return_unchecked (db : ServerDB) (i : String) (d : Int)
    (now : String) (r : Repuesto)
    (hnd : (db.repuestos.map Repuesto.id).Nodup)
    (h : db.get_one i = some r) :
    (db.add_quantity i d now).1 = .ok (r.cantidad + d) ∧
    (db.add_quantity i d now).2.get_one i =
      some { r with cantidad := r.cantidad + d, ultimo_update := now } ∧
    (db.add_quantity i d now).2.devoluciones = db.devoluciones ++ [⟨i, d, now⟩] ∧
    (db.add_quantity i d now).2.ventas = db.ventas := by
  refine ⟨?_, add_quantity_ok_get_one db i d now r hnd h, ?_, ?_⟩ <;>
    rw [add_quantity_ok db i d now r h]

def dbC10 : ServerDB := ⟨[⟨"A", "tornillo", "m4", 2, 0, 0, "t0", false⟩], [], []⟩

/-- Witness for C10: returning `-5` units against a stock of 2 succeeds and
stores the negative quantity `-3`. -/
theorem C10_return_unchecked_witness :
    (dbC10.add_quantity "A" (-5) "t1").1 = .ok (-3) ∧
    ((dbC10.add_quantity "A" (-5) "t1").2.get_one "A").map Repuesto.cantidad
      = some (-3) := by
  have h := C10_return_unchecked dbC10 "A" (-5) "t1"
      ⟨"A", "tornillo", "m4", 2, 0, 0, "t0", false⟩ (by decide) (by decide)
  refine ⟨by rw [h.1]; rfl, by rw [h.2.1]; rfl⟩

/-- Selling `q1` (within stock) and then `q2` (beyond the remaining stock)
against the same id: the first succeeds, the second fails with the
insufficient-stock error, and the quantity stays at `cantidad - q1`. -/
theorem sell_then_fail (db : ServerDB) (i : String) (q1 q2 : Int)
    (t1 t2 : String) (r : Repuesto)
    (hnd : (db.repuestos.map Repuesto.id).Nodup)
    (h : db.get_one i = some r)
    (hle : q1 ≤ r.cantidad) (hgt : q2 > r.cantidad - q1) :
    (db.sell i q1 t1).1 = .ok (r.cantidad - q1) ∧
    ((db.sell i q1 t1).2.sell i q2 t2).1 = .error "Stock insuficiente" ∧
    (((db.sell i q1 t1).2.sell i q2 t2).2.get_one i).map Repuesto.cantidad
      = some (r.cantidad - q1) := by
  have hg1 : (db.sell i q1 t1).2.get_one i =
      some { r with cantidad := r.cantidad - q1, ultimo_update := t1 } :=
    sell_ok_get_one db i q1 t1 r hnd h hle
  have h2 := sell_insufficient (db.sell i q1 t1).2 i q2 t2 _ hg1 hgt
  refine ⟨by rw [sell_ok db i q1 t1 r h hle], by rw [h2], by rw [h2, hg1]; rfl⟩

def dbC1 : ServerDB := ⟨[⟨"R1", "filtro", "aceite", 10, 0, 0, "t0", false⟩], [], []⟩

/-- Counterexample to claim C1: with `R1` at quantity 10, serializing
`sell(R1,7)` before `sell(R1,6)` makes the 7-unit sale the successful one,
so the final quantity is 3, not 4 — the claimed final quantity holds in
only one of the two serialization orders. -/
theorem C1_concurrent_sell_counterexample :
    (dbC1.sell "R1" 7 "t1").1 = .ok 3 ∧
    ((dbC1.sell "R1" 7 "t1").2.sell "R1" 6 "t2").1 = .error "Stock insuficiente" ∧
    (((dbC1.sell "R1" 7 "t1").2.sell "R1" 6 "t2").2.get_one "R1").map Repuesto.cantidad
      = some 3 ∧
    (((dbC1.sell "R1" 7 "t1").2.sell "R1" 6 "t2").2.get_one "R1").map Repuesto.cantidad
      ≠ some 4 := by
  refine ⟨rfl, rfl, rfl, by decide⟩

/-- Claim C1, amended: `DB_LOCK` makes each `sell` atomic, so the two concurrent
requests execute in one of the two serialization orders.  In both orders
exactly one request succeeds and the other fails with the
insufficient-stock error; the final quantity is 4 when the 6-unit sale is
serialized first and 3 when the 7-unit sale is serialized first — in
neither order is stock oversold. -/
theorem C1_concurrent_sell_serialized (db : ServerDB) (i : String)
    (t1 t2 : String) (r : Repuesto)
    (hnd : (db.repuestos.map Repuesto.id).Nodup)
    (h : db.get_one i = some r) (hq : r.cantidad = 10) :
    ((db.sell i 6 t1).1 = .ok 4 ∧
     ((db.sell i 6 t1).2.sell i 7 t2).1 = .error "Stock insuficiente" ∧
     (((db.sell i 6 t1).2.sell i 7 t2).2.get_one i).map Repuesto.cantidad = some 4) ∧
    ((db.sell i 7 t1).1 = .ok 3 ∧
     ((db.sell i 7 t1).2.sell i 6 t2).1 = .error "Stock insuficiente" ∧
     (((db.sell i 7 t1).2.sell i 6 t2).2.get_one i).map Repuesto.cantidad = some 3) := by
  have hA := sell_then_fail db i 6 7 t1 t2 r hnd h
      (by rw [hq]; decide) (by rw [hq]; decide)
  have hB := sell_then_fail db i 7 6 t1 t2 r hnd h
      (by rw [hq]; decide) (by rw [hq]; decide)
  rw [hq, show (10 : Int) - 6 = 4 from by decide] at hA
  rw [hq, show (10 : Int) - 7 = 3 from by decide] at hB
  exact ⟨hA, hB⟩

/-- Witness for the amended C1 at a concrete store holding `R1` with 10
units. -/
theorem C1_concurrent_sell_serialized_witness :
    (dbC1.sell "R1" 6 "t1").1 = .ok 4 ∧
    ((dbC1.sell "R1" 6 "t1").2.sell "R1" 7 "t2").1 = .error "Stock insuficiente" ∧
    (dbC1.sell "R1" 7 "t1").1 = .ok 3 := by
  have h := C1_concurrent_sell_serialized dbC1 "R1" "t1" "t2"
      ⟨"R1", "filtro", "aceite", 10, 0, 0, "t0", false⟩ (by decide) (by decide) rfl
  exact ⟨h.1.1, h.1.2.1, h.2.1⟩

/-- Claim C8: `mark_deleted` is idempotent in the observable store state: after
one call the record is gone from `get_all` and `get_one`; a second call
changes neither `get_all` nor any `get_one` result, and neither call
touches either ledger (only the version bump happens at the endpoint). -/
theorem C8_soft_delete_idempotent (db : ServerDB) (i t1 t2 : String) :
    ((db.mark_deleted i t1).mark_deleted i t2).get_all
        = (db.mark_deleted i t1).get_all ∧
    (∀ j, ((db.mark_deleted i t1).mark_deleted i t2).get_one j
        = (db.mark_deleted i t1).get_one j) ∧
    (db.mark_deleted i t1).get_one i = none ∧
    ((db.mark_deleted i t1).mark_deleted i t2).ventas = db.ventas ∧
    ((db.mark_deleted i t1).mark_deleted i t2).devoluciones = db.devoluciones := by
  refine ⟨filter_active_double_del db.repuestos i t1 t2, ?_, findActive_updateDel_self db.repuestos i t1, rfl, rfl⟩
  intro j
  by_cases hj : j = i
  · subst hj
    show findActive _ j = findActive _ j
    simp only [ServerDB.mark_deleted]
    rw [findActive_updateDel_self, findActive_updateDel_self]
  · exact findActive_updateById_other _ i j _ (fun x => rfl) hj

/-- Counterexample to claim C6: an upsert input whose `cantidad` key is absent makes
`upsert` fail with the parameter-binding error rather than succeed with a
zero default. -/
theorem C6_upsert_default_counterexample :
    ServerDB.upsert ⟨[], [], []⟩
        ⟨"A", some "tornillo", some "m4", none, some 1, some 2, none⟩ "t0"
      = .error "You did not supply a value for binding parameter" := rfl

/-- Claim C6, amended: when the quantity or either price key is absent from the
upsert input, `upsert` does not succeed and does not apply the schema
defaults 0/0.0: the named-parameter binding fails, so the whole request
errors out with nothing stored. -/
theorem C6_upsert_missing_key_fails (db : ServerDB) (item : ItemInput)
    (now : String)
    (habs : item.cantidad = none ∨ item.precio_usd = none ∨ item.precio_bs = none) :
    db.upsert item now = .error "You did not supply a value for binding parameter" := by
  obtain ⟨id, nom, desc, cant, pu, pb, ult⟩ := item
  dsimp only at habs
  cases nom <;> cases desc <;> cases cant <;> cases pu <;> cases pb <;>
    first
      | rfl
      | simp at habs

/-- Witness for the amended C6: an input missing only the `precio_bs` key
also fails with the binding error. -/
theorem C6_upsert_missing_key_fails_witness :
    ServerDB.upsert ⟨[], [], []⟩
        ⟨"B", some "correa", some "6pk", some 4, some 3, none, some "t0"⟩ "t1"
      = .error "You did not supply a value for binding parameter" :=
  C6_upsert_missing_key_fails ⟨[], [], []⟩
    ⟨"B", some "correa", some "6pk", some 4, some 3, none, some "t0"⟩ "t1"
    (Or.inr (Or.inr rfl))

/-- Claim C7: with no API key configured every protected endpoint fails closed
with the distinct 403 not-configured error (never letting the request
through), and with a key configured an empty or wrong credential yields the
different 401 invalid-or-missing error. -/
theorem C7_api_key_fail_closed :
    (∀ h, require_api_key none h = some (403, "server_api_key_no_configurada")) ∧
    (∀ h, require_api_key none h ≠ none) ∧
    (((403 : Nat), "server_api_key_no_configurada")
        ≠ ((401 : Nat), "api_key_invalida_o_faltante")) ∧
    (∀ k, require_api_key (some k) "" = some (401, "api_key_invalida_o_faltante")) ∧
    (∀ k h, h ≠ k →
        require_api_key (some k) h = some (401, "api_key_invalida_o_faltante")) := by
  refine ⟨fun h => rfl, fun h => by simp [require_api_key], by decide, ?_, ?_⟩
  · intro k
    unfold require_api_key
    dsimp only
    rw [if_pos (Or.inl rfl)]
  · intro k h hne
    unfold require_api_key
    dsimp only
    rw [if_pos (Or.inr hne)]

/-- Witness for C7: a request with any credential against an unconfigured
server gets 403, and a wrong credential against a configured server gets
401. -/
theorem C7_api_key_fail_closed_witness :
    require_api_key none "cualquiera" = some (403, "server_api_key_no_configurada") ∧
    require_api_key (some "secreto") "equivocada"
      = some (401, "api_key_invalida_o_faltante") :=
  ⟨C7_api_key_fail_closed.1 "cualquiera",
   C7_api_key_fail_closed.2.2.2.2 "secreto" "equivocada" (by decide)⟩

/-- Counterexample to claim C4: `now_ts()` has one-second resolution, so a mutation
that bumps `LAST_UPDATE` within the same clock second as the currently
stored value leaves the observed version unchanged — here the version is 5,
one mutation bumps at clock second 5 (a monotone clock), and the version is
still 5, refuting the inference from an unchanged version to the absence of
mutations. -/
theorem C4_unchanged_version_counterexample :
    List.Chain (· ≤ ·) 5 [5] ∧ bumpFold 5 [5] = 5 ∧ ([5] : List Nat) ≠ [] :=
  ⟨List.Chain.cons (le_refl 5) List.Chain.nil, rfl, by decide⟩

/-- Claim C4, amended: under a monotone clock the version is non-decreasing —
it never moves backwards across any sequence of `update_last_update` calls,
and every initial segment of the bump sequence yields a value no larger
than the final one.  But an unchanged observed version only guarantees that
every mutation in between bumped at exactly that clock second (coalescing),
not that no mutation occurred. -/
theorem C4_version_monotone_coalesce (v0 : Nat) (ms : List Nat)
    (hmono : List.Chain (· ≤ ·) v0 ms) :
    v0 ≤ bumpFold v0 ms ∧
    (∀ p s, ms = p ++ s → bumpFold v0 p ≤ bumpFold v0 ms) ∧
    (bumpFold v0 ms = v0 → ∀ t ∈ ms, t = v0) := by
  refine ⟨le_bumpFold v0 ms hmono, ?_, bumpFold_fixed_coalesce v0 ms hmono⟩
  intro p s hps
  subst hps
  rw [bumpFold_append]
  exact le_bumpFold _ s (chain_bumpFold_append v0 p s hmono)

/-- Witness for the amended C4 on the monotone bump trace `[2, 2, 3]` from
initial version 1. -/
theorem C4_version_monotone_coalesce_witness :
    (1 : Nat) ≤ bumpFold 1 [2, 2, 3] ∧ bumpFold 1 [2] ≤ bumpFold 1 [2, 2, 3] := by
  have h := C4_version_monotone_coalesce 1 [2, 2, 3]
      (List.Chain.cons (by omega) (List.Chain.cons (by omega)
        (List.Chain.cons (by omega) List.Chain.nil)))
  exact ⟨h.1, h.2.1 [2] [2, 3] rfl⟩

/-- Counterexample to claim C9: `sorted(..., reverse=True)` sorts by filename, and
every `pre_restore_*` name is lexicographically greater than every
`backup_*` name, so an older pre-restore snapshot is listed before a newer
backup: the output is not in descending creation-time order. -/
theorem C9_order_counterexample :
    list_backups ["backup_20250102120000.db", "pre_restore_20250101120000.db"]
      = ["pre_restore_20250101120000.db", "backup_20250102120000.db"] ∧
    ¬ List.Sorted (fun a b => timestampChars b < timestampChars a)
        (list_backups ["backup_20250102120000.db", "pre_restore_20250101120000.db"]) := by
  have hlt : ("backup_20250102120000.db" : String) < "pre_restore_20250101120000.db" := by
    rw [String.lt_iff_toList_lt]
    decide
  have heq : list_backups ["backup_20250102120000.db", "pre_restore_20250101120000.db"]
      = ["pre_restore_20250101120000.db", "backup_20250102120000.db"] := by
    simp only [list_backups, List.insertionSort, List.orderedInsert]
    rw [if_neg (not_le.mpr hlt)]
  refine ⟨heq, ?_⟩
  rw [heq]
  intro hsort
  have h1 := List.rel_of_sorted_cons hsort "backup_20250102120000.db" (by simp)
  revert h1
  decide

/-- Claim C9, amended: `list_backups` returns a permutation of the directory
listing sorted in descending lexicographic filename order.  Because the
kind tag leads the name, this coincides with descending creation time only
among snapshots with the same tag; across tags, `pre_restore_*` names sort
before `backup_*` names regardless of timestamp. -/
theorem C9_list_backups_sorted_desc (files : List String) :
    List.Sorted (fun a b : String => b ≤ a) (list_backups files) ∧
    List.Perm (list_backups files) files := by
  constructor
  · haveI h1 : IsTotal String (fun a b => b ≤ a) := ⟨fun a b => le_total b a⟩
    haveI h2 : IsTrans String (fun a b => b ≤ a) := ⟨fun a b c hab hbc => le_trans hbc hab⟩
    exact List.sorted_insertionSort _ files
  · exact List.perm_insertionSort _ files

/-- Claim C5: restoring an existing snapshot first copies the current live file
to a durable `pre_restore_*` safety file and only afterwards overwrites the
live file — the trace decomposition exhibits the pre-restore copy strictly
before the overwrite — then reopens the store and bumps the version
tracker.  After the restore, the safety file holds exactly the pre-restore
live bytes (the undo point), and the live file holds the snapshot bytes. -/
theorem C5_restore_pre_copy (st : RestoreState) (sel nowTs nowVer bytes : String)
    (h : st.readLoc (.backup sel) = some bytes)
    (hne : sel ≠ "pre_restore_" ++ nowTs ++ ".db") :
    (restoreTrace sel nowTs nowVer =
       [.commit, .closeDB] ++
       [.copyFile .live (.backup ("pre_restore_" ++ nowTs ++ ".db"))] ++
       [.copyFile (.backup sel) .live] ++
       [.reconnect, .bumpVersion nowVer]) ∧
    (restore_backup st sel nowTs nowVer).readLoc
        (.backup ("pre_restore_" ++ nowTs ++ ".db")) = some st.liveBytes ∧
    (restore_backup st sel nowTs nowVer).liveBytes = bytes ∧
    (restore_backup st sel nowTs nowVer).connected = true ∧
    (restore_backup st sel nowTs nowVer).lastUpdate = nowVer := by
  have hrb : restore_backup st sel nowTs nowVer
      = runOps st (restoreTrace sel nowTs nowVer) := by
    unfold restore_backup
    rw [show st.readLoc (.backup sel) = some bytes from h]
  rw [hrb, runOps_restoreTrace st sel nowTs nowVer bytes h hne]
  refine ⟨rfl, ?_, rfl, rfl, rfl⟩
  simp [RestoreState.readLoc]

def stC5 : RestoreState :=
  ⟨"LIVEBYTES",
   fun m => if m = "backup_20240101000000.db" then some "SNAPBYTES" else none,
   true, "v0"⟩

/-- Witness for C5 on a concrete state: restoring the one existing backup
replaces the live bytes with the snapshot bytes and leaves a pre-restore
copy of the old live bytes. -/
theorem C5_restore_pre_copy_witness :
    (restore_backup stC5 "backup_20240101000000.db" "20240102000000" "v1").liveBytes
      = "SNAPBYTES" ∧
    (restore_backup stC5 "backup_20240101000000.db" "20240102000000" "v1").readLoc
      (.backup "pre_restore_20240102000000.db") = some "LIVEBYTES" ∧
    (restore_backup stC5 "backup_20240101000000.db" "20240102000000" "v1").lastUpdate
      = "v1" := by
  have h := C5_restore_pre_copy stC5 "backup_20240101000000.db" "20240102000000"
      "v1" "SNAPBYTES" (by decide) (by decide)
  exact ⟨h.2.2.1, h.2.1, h.2.2.2.2⟩
